import Mathlib

/-!
Shallow embedding of `src/transports/http.rs` from chainx-org/async-jsonrpc.

Machine integers: the id counter is an `AtomicUsize`; `usize` is modelled as a
natural number reduced modulo `2^64` (64-bit target), since Rust's
`AtomicUsize::fetch_add` wraps on overflow.

External collaborator semantics embedded here (reqwest 0.11, the HTTP client
used by the crate):
* `RequestBuilder` carries `Result<Request, Error>` internally; a failed
  `json(..)` serialization stores the error and `send()` returns it without
  touching the network.
* `RequestBuilder::header` (used by `bearer_auth` and `basic_auth`) APPENDS to
  the header map (`HeaderMap::append`), it does not replace an existing
  `Authorization` header.
* `basic_auth(u, Some(p))` sets `Authorization: Basic base64(u ++ ":" ++ p)`;
  `basic_auth(u, None)` encodes just `u`.
* `json(..)` sets `Content-Type: application/json` when not already present.

JSON (de)serialization itself and the network are parameters (`ser`, `net`,
`de`) of the send pipeline: the crate delegates both to serde_json/reqwest and
never inspects their output beyond success/failure.
-/

/-- The modulus of `usize` arithmetic on the (64-bit) target. -/
def USIZE : Nat := 2 ^ 64

/-- Modelled from the spec: a JSON value tree (types.rs is not under src/;
§3 treats params/results as opaque already-JSON-shaped values). -/
inductive Json where
  | null : Json
  | boolean (b : Bool) : Json
  | num (n : Int) : Json
  | str (s : String) : Json
  | arr (xs : List Json) : Json
  | obj (fields : List (String × Json)) : Json
deriving Repr

/-- Modelled from the spec: `Params` is a positional array or a keyed map
(§3); the core never inspects its contents. -/
inductive Params where
  | array (xs : List Json) : Params
  | map (fields : List (String × Json)) : Params
deriving Repr

/-- Request identifiers are `usize` values. -/
abbrev RequestId := Nat

/-- Modelled from the spec: the protocol version tag; http.rs only ever
constructs `Version::V2` ("2.0"). -/
inductive Version where
  | V2 : Version
deriving Repr

/-- Modelled from the spec: the `MethodCall` payload, with the fields
http.rs populates (`jsonrpc`, `id`, `method`, `params`). -/
structure MethodCall where
  jsonrpc : Option Version
  id : RequestId
  method : String
  params : Params
deriving Repr

/-- Modelled from the spec: `Call` is a tagged variant — a method call or a
notification without id (§3). -/
inductive Call where
  | MethodCall (c : MethodCall) : Call
  | Notification (method : String) (params : Params) : Call
deriving Repr

/-- Modelled from the spec: a `Request` is a single call or a batch (§3). -/
inductive Request where
  | Single (c : Call) : Request
  | Batch (cs : List Call) : Request
deriving Repr

/-- Modelled from the spec: one response object carries an id and either a
result or an error field (§3, §6). -/
inductive Output where
  | success (id : RequestId) (result : Json) : Output
  | failure (id : RequestId) (error : Json) : Output
deriving Repr

/-- Modelled from the spec: `Response` mirrors the request shape (§3). -/
inductive Response where
  | Single (o : Output) : Response
  | Batch (os : List Output) : Response
deriving Repr

/-- Modelled from the spec: errors.rs is not under src/; §7 names the error
kinds surfaced by `execute` (serialization, network/transport, decode). -/
inductive RpcError where
  | serialization (msg : String) : RpcError
  | transport (msg : String) : RpcError
  | decode (msg : String) : RpcError
deriving Repr

/-- UTF-8 encoding of one scalar value, as bytes (`String::as_bytes`). -/
def utf8EncodeCharBytes (c : Char) : List Nat :=
  let n := c.toNat
  if n < 0x80 then [n]
  else if n < 0x800 then [0xC0 + n / 64, 0x80 + n % 64]
  else if n < 0x10000 then [0xE0 + n / 4096, 0x80 + n / 64 % 64, 0x80 + n % 64]
  else [0xF0 + n / 262144, 0x80 + n / 4096 % 64, 0x80 + n / 64 % 64, 0x80 + n % 64]

/-- UTF-8 bytes of a string. -/
def utf8Bytes (s : String) : List Nat :=
  s.data.flatMap utf8EncodeCharBytes

/-- The standard base64 alphabet (RFC 4648), used by the `base64` crate that
reqwest's `basic_auth` delegates to. -/
def b64Alphabet : List Char :=
  "ABCDEFGHIJKLMNOPQRSTUVWXYZabcdefghijklmnopqrstuvwxyz0123456789+/".data

/-- The base64 digit for a 6-bit group. -/
def b64Char (n : Nat) : Char := b64Alphabet.getD n 'A'

/-- Standard padded base64 of a byte sequence (RFC 4648), as produced by
`base64::encode`. -/
def base64Encode : List Nat → String
  | [] => ""
  | [a] =>
      String.mk [b64Char (a / 4), b64Char (a % 4 * 16)] ++ "=="
  | [a, b] =>
      String.mk [b64Char (a / 4), b64Char (a % 4 * 16 + b / 16),
                 b64Char (b % 16 * 4)] ++ "="
  | a :: b :: c :: rest =>
      String.mk [b64Char (a / 4), b64Char (a % 4 * 16 + b / 16),
                 b64Char (b % 16 * 4 + c / 64), b64Char (c % 64)]
        ++ base64Encode rest

/-- The `HttpTransport` struct. The `id: Arc<AtomicUsize>` field is modelled
by `allocRef`, the identity of the shared atomic cell; the counter's value
lives in a `World` (below). `#[derive(Clone)]` clones the `Arc`, i.e. copies
`allocRef`. The reqwest `client` field carries no state the claims observe. -/
structure HttpTransport where
  allocRef : Nat
  url : String
  bearer_auth_token : Option String
  basic_auth_username : Option String
  basic_auth_password : Option String
deriving Repr

/-- `HttpTransport::new`: fresh allocator cell `r` (holding 0), no auth.
`r` stands for the address of the freshly allocated `Arc<AtomicUsize>`. -/
def HttpTransport.new (r : Nat) (url : String) : HttpTransport :=
  { allocRef := r, url := url, bearer_auth_token := none,
    basic_auth_username := none, basic_auth_password := none }

/-- `HttpTransport::new_with_bearer_auth`. -/
def HttpTransport.new_with_bearer_auth (r : Nat) (url token : String) :
    HttpTransport :=
  { allocRef := r, url := url, bearer_auth_token := some token,
    basic_auth_username := none, basic_auth_password := none }

/-- `HttpTransport::new_with_basic_auth`. -/
def HttpTransport.new_with_basic_auth (r : Nat) (url username password : String) :
    HttpTransport :=
  { allocRef := r, url := url, bearer_auth_token := none,
    basic_auth_username := some username, basic_auth_password := some password }

/-- `#[derive(Clone)]`: cloning copies the `Arc` pointers and the immutable
configuration; in particular `allocRef` is shared, not forked. -/
def cloneTransport (t : HttpTransport) : HttpTransport := t

/-- `AtomicUsize::fetch_add(1, ..)` on current value `c`: returns the previous
value and the wrapped successor. -/
def fetch_add (c : Nat) : Nat × Nat := (c, (c + 1) % USIZE)

/-- `HttpTransport::prepare` with the counter state passed explicitly:
allocates the id (pre-increment value) and builds the V2 `MethodCall`. -/
def prepare (c : Nat) (method : String) (params : Params) :
    (RequestId × Call) × Nat :=
  let id := (fetch_add c).1
  ((id, Call.MethodCall
      { jsonrpc := some Version.V2, id := id, method := method,
        params := params }),
   (fetch_add c).2)

/-- The counter value after `n` successive `prepare` calls, starting from the
fresh cell value 0. -/
def counterAfter : Nat → Nat
  | 0 => 0
  | n + 1 => (prepare (counterAfter n) "" (Params.array [])).2

/-- The id returned by the n-th (0-based) successive `prepare` call on one
instance. (`prepare`'s id does not depend on the method or params.) -/
def idAt (n : Nat) : RequestId :=
  (prepare (counterAfter n) "" (Params.array [])).1.1

/-- The mutable store backing the shared atomic cells: the value of each
`Arc<AtomicUsize>` by cell identity. -/
structure World where
  alloc : Nat → Nat

/-- `prepare` acting on the shared cell named by the transport handle:
reads and bumps `alloc t.allocRef` (the `Arc` dereference). -/
def prepareW (w : World) (t : HttpTransport) (method : String)
    (params : Params) : (RequestId × Call) × World :=
  let r := prepare (w.alloc t.allocRef) method params
  (r.1, ⟨Function.update w.alloc t.allocRef r.2⟩)

/-- Run a sequence of `prepare` calls, one per handle in the schedule,
collecting the returned ids. -/
def runPrepares (w : World) : List HttpTransport → List RequestId × World
  | [] => ([], w)
  | t :: ts =>
      ((prepareW w t "" (Params.array [])).1.1
         :: (runPrepares (prepareW w t "" (Params.array [])).2 ts).1,
       (runPrepares (prepareW w t "" (Params.array [])).2 ts).2)

/-- An outgoing HTTP request description (reqwest `Request`): URL, headers in
insertion order, body bytes. -/
structure HttpRequest where
  url : String
  headers : List (String × String)
  body : List Nat
deriving Repr

/-- An HTTP response: status code and body bytes. -/
structure HttpResponse where
  status : Nat
  body : List Nat
deriving Repr

/-- reqwest's `RequestBuilder`: the request under construction, or the first
recorded error (returned later by `send()`). -/
abbrev ReqBuilder := Except String HttpRequest

/-- `Client::post(url)`: a fresh builder for the given URL. -/
def clientPost (url : String) : ReqBuilder :=
  Except.ok { url := url, headers := [], body := [] }

/-- `RequestBuilder::header` (via `header_sensitive`): appends to the header
map; an errored builder stays errored. -/
def appendHeader (k v : String) : ReqBuilder → ReqBuilder
  | Except.error e => Except.error e
  | Except.ok req => Except.ok { req with headers := req.headers ++ [(k, v)] }

/-- Whether a header name is already present. -/
def hasHeader (req : HttpRequest) (k : String) : Bool :=
  req.headers.any (fun kv => kv.1 == k)

/-- `RequestBuilder::json(request)`: runs the serializer; on success sets the
body and adds `Content-Type: application/json` when absent; on failure the
builder records the serialization error. -/
def jsonStep (ser : Request → Except String (List Nat)) (r : Request) :
    ReqBuilder → ReqBuilder
  | Except.error e => Except.error e
  | Except.ok req =>
      match ser r with
      | Except.ok body =>
          let req := if hasHeader req "content-type" then req
                     else { req with
                            headers := req.headers
                              ++ [("content-type", "application/json")] }
          Except.ok { req with body := body }
      | Except.error e => Except.error e

/-- `RequestBuilder::bearer_auth(token)`: appends
`Authorization: Bearer token`. -/
def bearer_auth (token : String) : ReqBuilder → ReqBuilder :=
  appendHeader "authorization" ("Bearer " ++ token)

/-- `RequestBuilder::basic_auth(username, password)`: appends
`Authorization: Basic base64(username ":" password)` (no colon when the
password is absent). -/
def basic_auth (username : String) (password : Option String) :
    ReqBuilder → ReqBuilder :=
  appendHeader "authorization"
    ("Basic " ++ base64Encode (utf8Bytes (match password with
      | some p => username ++ ":" ++ p
      | none => username)))

/-- `builder.send().await?.json().await?`: network then decode, with the
crate's error classification (§7). -/
def dispatch (net : HttpRequest → Except String HttpResponse)
    (de : List Nat → Except String Response) (q : HttpRequest) :
    Except RpcError Response :=
  match net q with
  | Except.error e => Except.error (RpcError.transport e)
  | Except.ok resp =>
      match de resp.body with
      | Except.ok response => Except.ok response
      | Except.error e => Except.error (RpcError.decode e)

/-- `HttpTransport::send_request`, returning the result together with the
list of HTTP requests actually handed to the network (the trace is empty
when `send()` short-circuits on a recorded builder error). -/
def send_request (ser : Request → Except String (List Nat))
    (net : HttpRequest → Except String HttpResponse)
    (de : List Nat → Except String Response)
    (t : HttpTransport) (request : Request) :
    Except RpcError Response × List HttpRequest :=
  let builder := jsonStep ser request (clientPost t.url)
  let builder := match t.bearer_auth_token with
    | some token => bearer_auth token builder
    | none => builder
  let builder := match t.basic_auth_username with
    | some username => basic_auth username t.basic_auth_password builder
    | none => builder
  match builder with
  | Except.error e => (Except.error (RpcError.serialization e), [])
  | Except.ok req => (dispatch net de req, [req])

/-- `Transport::execute` for `HttpTransport`: ignores `_id` and delegates to
`send_request`. -/
def execute (ser : Request → Except String (List Nat))
    (net : HttpRequest → Except String HttpResponse)
    (de : List Nat → Except String Response)
    (t : HttpTransport) (_id : RequestId) (request : Request) :
    Except RpcError Response × List HttpRequest :=
  send_request ser net de t request

/-- The values of the `Authorization` headers of a request, in order. -/
def authHeaderValues (req : HttpRequest) : List String :=
  (req.headers.filter (fun kv => kv.1 == "authorization")).map (fun kv => kv.2)

/-- The headers `send_request` puts on the outgoing request when
serialization succeeds: content type first (from `json`), then the bearer
header, then the basic header, as the builder chain appends them. -/
def builtHeaders (t : HttpTransport) : List (String × String) :=
  [("content-type", "application/json")]
  ++ (match t.bearer_auth_token with
      | some token => [("authorization", "Bearer " ++ token)]
      | none => [])
  ++ (match t.basic_auth_username with
      | some username =>
          [("authorization", "Basic " ++ base64Encode (utf8Bytes
            (match t.basic_auth_password with
             | some p => username ++ ":" ++ p
             | none => username)))]
      | none => [])

/-- The transports reachable through the three public constructors (the
fields are private and immutable afterwards). -/
inductive ReachableTransport : HttpTransport → Prop where
  | plain (r : Nat) (url : String) :
      ReachableTransport (HttpTransport.new r url)
  | bearer (r : Nat) (url token : String) :
      ReachableTransport (HttpTransport.new_with_bearer_auth r url token)
  | basic (r : Nat) (url username password : String) :
      ReachableTransport
        (HttpTransport.new_with_basic_auth r url username password)

lemma USIZE_pos : 0 < USIZE := by decide

lemma counterAfter_eq (n : Nat) : counterAfter n = n % USIZE := by
  induction n with
  | zero => simp [counterAfter]
  | succ n ih =>
      show (prepare (counterAfter n) "" (Params.array [])).2 = (n + 1) % USIZE
      rw [show (prepare (counterAfter n) "" (Params.array [])).2
            = (counterAfter n + 1) % USIZE from rfl, ih]
      exact Nat.mod_add_mod n USIZE 1

lemma idAt_eq (n : Nat) : idAt n = n % USIZE := by
  show counterAfter n = n % USIZE
  exact counterAfter_eq n

/-- C1 (amended: for calls numbered below `2^64`, i.e. before the `usize`
counter wraps): each successive `prepare` call returns the pre-increment
value of the shared counter, which starts at 0; the first id is 0 and the
ids are strictly increasing (hence pairwise distinct). -/
theorem prepare_ids_preincrement_strict (m n : Nat) (hmn : m < n)
    (hn : n < USIZE) :
    idAt 0 = 0 ∧ idAt n = counterAfter n ∧ idAt m < idAt n := by
  refine ⟨by simp [idAt_eq], rfl, ?_⟩
  rw [idAt_eq, idAt_eq, Nat.mod_eq_of_lt hn,
    Nat.mod_eq_of_lt (Nat.lt_trans hmn hn)]
  exact hmn

theorem prepare_ids_preincrement_strict_witness :
    idAt 0 = 0 ∧ idAt 1 = counterAfter 1 ∧ idAt 0 < idAt 1 :=
  prepare_ids_preincrement_strict 0 1 (by decide) (by decide)

/-- C1 counterexample: `AtomicUsize::fetch_add` wraps, so the call numbered
`2^64` returns the same id as the very first call — the unbounded claim
"ids of successive calls are strictly increasing and pairwise distinct"
fails at the concrete call index `USIZE = 2^64`. -/
theorem idAt_wraps_at_usize : idAt USIZE = idAt 0 ∧ USIZE ≠ 0 := by
  refine ⟨?_, by decide⟩
  rw [idAt_eq, idAt_eq, Nat.mod_self, Nat.zero_mod]

/-- C2: `prepare c m p` returns the pair of the freshly allocated id `c`
(the pre-increment counter value) and the `MethodCall` variant tagged with
protocol version 2.0, the method name `m`, the params `p` unchanged, and
that same id; the counter advances to `(c+1) % 2^64`. It is a total pure
function of the counter state: it performs no network I/O and never fails. -/
theorem prepare_builds_v2_method_call (c : Nat) (m : String) (p : Params) :
    prepare c m p =
      ((c, Call.MethodCall
          { jsonrpc := some Version.V2, id := c, method := m, params := p }),
       (c + 1) % USIZE) := rfl

/-- C9: `execute` never reads its `_id` argument: for any two ids the
outgoing HTTP request trace and the result coincide. -/
theorem execute_independent_of_id
    (ser : Request → Except String (List Nat))
    (net : HttpRequest → Except String HttpResponse)
    (de : List Nat → Except String Response)
    (t : HttpTransport) (i j : RequestId) (r : Request) :
    execute ser net de t i r = execute ser net de t j r := rfl

/-- C7: when the request body cannot be serialized, `send()` returns the
recorded serialization error at once; the network trace is empty (the
right-hand side does not depend on `net`). -/
theorem serialization_error_skips_network
    (ser : Request → Except String (List Nat))
    (net : HttpRequest → Except String HttpResponse)
    (de : List Nat → Except String Response)
    (t : HttpTransport) (r : Request) (e : String)
    (hs : ser r = Except.error e) :
    send_request ser net de t r = (Except.error (RpcError.serialization e), []) := by
  rcases t with ⟨a, url, tok, bu, bp⟩
  cases tok <;> cases bu <;>
    simp [send_request, jsonStep, clientPost, bearer_auth, basic_auth,
      appendHeader, hs]

theorem serialization_error_skips_network_witness :
    send_request (fun _ => Except.error "boom") (fun _ => Except.error "net")
      (fun _ => Except.error "de") (HttpTransport.new 0 "http://h")
      (Request.Batch [])
      = (Except.error (RpcError.serialization "boom"), []) :=
  serialization_error_skips_network _ _ _ _ _ "boom" rfl

/-- C6: the HTTP status code is never inspected — two responses with the
same body but different statuses produce identical results — and a body the
decoder rejects surfaces as a decode error, not a transport error. -/
theorem status_never_inspected
    (ser : Request → Except String (List Nat))
    (de : List Nat → Except String Response)
    (t : HttpTransport) (r : Request) (s1 s2 : Nat)
    (b body : List Nat) (e : String)
    (hs : ser r = Except.ok body) (hde : de b = Except.error e) :
    send_request ser (fun _ => Except.ok ⟨s1, b⟩) de t r
      = send_request ser (fun _ => Except.ok ⟨s2, b⟩) de t r
    ∧ (send_request ser (fun _ => Except.ok ⟨s1, b⟩) de t r).1
      = Except.error (RpcError.decode e) := by
  rcases t with ⟨a, url, tok, bu, bp⟩
  cases tok <;> cases bu <;>
    simp [send_request, jsonStep, clientPost, bearer_auth, basic_auth,
      appendHeader, hasHeader, dispatch, hs, hde]

theorem status_never_inspected_witness :
    send_request (fun _ => Except.ok [1]) (fun _ => Except.ok ⟨500, [2]⟩)
        (fun _ => Except.error "bad") (HttpTransport.new 0 "http://h")
        (Request.Batch [])
      = send_request (fun _ => Except.ok [1]) (fun _ => Except.ok ⟨200, [2]⟩)
        (fun _ => Except.error "bad") (HttpTransport.new 0 "http://h")
        (Request.Batch [])
    ∧ (send_request (fun _ => Except.ok [1]) (fun _ => Except.ok ⟨500, [2]⟩)
        (fun _ => Except.error "bad") (HttpTransport.new 0 "http://h")
        (Request.Batch [])).1
      = Except.error (RpcError.decode "bad") :=
  status_never_inspected (fun _ => Except.ok [1]) (fun _ => Except.error "bad")
    (HttpTransport.new 0 "http://h") (Request.Batch []) 500 200 [2] [1] "bad"
    rfl rfl

/-- C5: `execute` delegates to `send_request` for every request shape
(single and batch go through the same code path), and when serialization
succeeds exactly one POST is issued, to the construction-time URL, carrying
`Content-Type: application/json`, the credential headers and the serialized
body; the result is the decode of the network's answer to that request. -/
theorem execute_posts_exactly_once
    (ser : Request → Except String (List Nat))
    (net : HttpRequest → Except String HttpResponse)
    (de : List Nat → Except String Response)
    (t : HttpTransport) (i : RequestId) (r : Request) (body : List Nat)
    (hs : ser r = Except.ok body) :
    execute ser net de t i r = send_request ser net de t r
    ∧ (send_request ser net de t r).2 = [⟨t.url, builtHeaders t, body⟩]
    ∧ (send_request ser net de t r).1
      = dispatch net de ⟨t.url, builtHeaders t, body⟩ := by
  refine ⟨rfl, ?_⟩
  rcases t with ⟨a, url, tok, bu, bp⟩
  cases tok <;> cases bu <;> cases bp <;>
    simp [send_request, jsonStep, clientPost, bearer_auth, basic_auth,
      appendHeader, hasHeader, builtHeaders, hs]

theorem execute_posts_exactly_once_witness :
    execute (fun _ => Except.ok [123]) (fun _ => Except.ok ⟨200, [5]⟩)
        (fun _ => Except.ok (Response.Single (Output.success 0 Json.null)))
        (HttpTransport.new_with_bearer_auth 0 "http://h" "tk") 7
        (Request.Single (Call.Notification "n" (Params.array [])))
      = send_request (fun _ => Except.ok [123]) (fun _ => Except.ok ⟨200, [5]⟩)
        (fun _ => Except.ok (Response.Single (Output.success 0 Json.null)))
        (HttpTransport.new_with_bearer_auth 0 "http://h" "tk")
        (Request.Single (Call.Notification "n" (Params.array [])))
    ∧ (send_request (fun _ => Except.ok [123]) (fun _ => Except.ok ⟨200, [5]⟩)
        (fun _ => Except.ok (Response.Single (Output.success 0 Json.null)))
        (HttpTransport.new_with_bearer_auth 0 "http://h" "tk")
        (Request.Single (Call.Notification "n" (Params.array [])))).2
      = [⟨(HttpTransport.new_with_bearer_auth 0 "http://h" "tk").url,
          builtHeaders (HttpTransport.new_with_bearer_auth 0 "http://h" "tk"),
          [123]⟩]
    ∧ (send_request (fun _ => Except.ok [123]) (fun _ => Except.ok ⟨200, [5]⟩)
        (fun _ => Except.ok (Response.Single (Output.success 0 Json.null)))
        (HttpTransport.new_with_bearer_auth 0 "http://h" "tk")
        (Request.Single (Call.Notification "n" (Params.array [])))).1
      = dispatch (fun _ => Except.ok ⟨200, [5]⟩)
          (fun _ => Except.ok (Response.Single (Output.success 0 Json.null)))
          ⟨(HttpTransport.new_with_bearer_auth 0 "http://h" "tk").url,
           builtHeaders (HttpTransport.new_with_bearer_auth 0 "http://h" "tk"),
           [123]⟩ :=
  execute_posts_exactly_once _ _ _ _ 7 _ [123] rfl

/-- C3: for each of the three construction-time credential choices the
decorated outgoing request carries at most one `Authorization` header: none
without credentials, exactly `Bearer token` (and no Basic header) for bearer
credentials, and exactly the standard base64 `Basic` encoding of
`username:password` for basic credentials. -/
theorem credential_decoration_cases
    (ser : Request → Except String (List Nat))
    (net : HttpRequest → Except String HttpResponse)
    (de : List Nat → Except String Response)
    (r : Request) (body : List Nat) (a : Nat)
    (url token username password : String)
    (hs : ser r = Except.ok body) :
    ((send_request ser net de (HttpTransport.new a url) r).2.map
        authHeaderValues) = [[]]
    ∧ ((send_request ser net de
          (HttpTransport.new_with_bearer_auth a url token) r).2.map
        authHeaderValues) = [["Bearer " ++ token]]
    ∧ ((send_request ser net de
          (HttpTransport.new_with_basic_auth a url username password) r).2.map
        authHeaderValues)
      = [["Basic " ++ base64Encode (utf8Bytes (username ++ ":" ++ password))]] := by
  simp [send_request, jsonStep, clientPost, bearer_auth, basic_auth,
    appendHeader, hasHeader, authHeaderValues, HttpTransport.new,
    HttpTransport.new_with_bearer_auth, HttpTransport.new_with_basic_auth, hs]

theorem credential_decoration_cases_witness :
    ((send_request (fun _ => Except.ok [49]) (fun _ => Except.error "net")
        (fun _ => Except.error "de") (HttpTransport.new 3 "http://h")
        (Request.Batch [])).2.map authHeaderValues) = [[]]
    ∧ ((send_request (fun _ => Except.ok [49]) (fun _ => Except.error "net")
        (fun _ => Except.error "de")
        (HttpTransport.new_with_bearer_auth 3 "http://h" "abc")
        (Request.Batch [])).2.map authHeaderValues) = [["Bearer " ++ "abc"]]
    ∧ ((send_request (fun _ => Except.ok [49]) (fun _ => Except.error "net")
        (fun _ => Except.error "de")
        (HttpTransport.new_with_basic_auth 3 "http://h" "u" "p")
        (Request.Batch [])).2.map authHeaderValues)
      = [["Basic " ++ base64Encode (utf8Bytes ("u" ++ ":" ++ "p"))]] :=
  credential_decoration_cases _ _ _ _ [49] 3 "http://h" "abc" "u" "p" rfl

/-- C4 counterexample: with both the bearer token and the basic-auth fields
populated, the decorated request does not honor Bearer alone — reqwest's
`header` appends, so the concrete transport
`{bearer = "tk", basic = ("u","p")}` sends BOTH `Authorization: Bearer tk`
and `Authorization: Basic dTpw` (`dTpw` = base64 of `u:p`). -/
theorem both_auth_fields_two_headers :
    ((send_request (fun _ => Except.ok [49]) (fun _ => Except.error "net")
        (fun _ => Except.error "de")
        { allocRef := 0, url := "http://h", bearer_auth_token := some "tk",
          basic_auth_username := some "u", basic_auth_password := some "p" }
        (Request.Batch [])).2.map authHeaderValues)
      = [["Bearer tk", "Basic dTpw"]]
    ∧ [["Bearer tk", "Basic dTpw"]] ≠ ([["Bearer tk"]] : List (List String)) := by
  exact ⟨by decide, by decide⟩

/-- C4 (amended): when both schemes' fields are populated the builder chain
appends both headers — the outgoing request carries `Bearer` first and then
`Basic`, neither suppressing the other; with only the basic fields populated
the `Basic` header is applied (Basic over None). -/
theorem both_auth_fields_append_in_order
    (ser : Request → Except String (List Nat))
    (net : HttpRequest → Except String HttpResponse)
    (de : List Nat → Except String Response)
    (r : Request) (body : List Nat) (a : Nat)
    (url token username password : String)
    (hs : ser r = Except.ok body) :
    ((send_request ser net de
        { allocRef := a, url := url, bearer_auth_token := some token,
          basic_auth_username := some username,
          basic_auth_password := some password } r).2.map authHeaderValues)
      = [["Bearer " ++ token,
          "Basic " ++ base64Encode (utf8Bytes (username ++ ":" ++ password))]]
    ∧ ((send_request ser net de
        { allocRef := a, url := url, bearer_auth_token := none,
          basic_auth_username := some username,
          basic_auth_password := some password } r).2.map authHeaderValues)
      = [["Basic " ++ base64Encode (utf8Bytes (username ++ ":" ++ password))]] := by
  simp [send_request, jsonStep, clientPost, bearer_auth, basic_auth,
    appendHeader, hasHeader, authHeaderValues, hs]

theorem both_auth_fields_append_in_order_witness :
    ((send_request (fun _ => Except.ok [49]) (fun _ => Except.error "net")
        (fun _ => Except.error "de")
        { allocRef := 0, url := "http://h", bearer_auth_token := some "tk2",
          basic_auth_username := some "user",
          basic_auth_password := some "pw" }
        (Request.Batch [])).2.map authHeaderValues)
      = [["Bearer " ++ "tk2",
          "Basic " ++ base64Encode (utf8Bytes ("user" ++ ":" ++ "pw"))]]
    ∧ ((send_request (fun _ => Except.ok [49]) (fun _ => Except.error "net")
        (fun _ => Except.error "de")
        { allocRef := 0, url := "http://h", bearer_auth_token := none,
          basic_auth_username := some "user",
          basic_auth_password := some "pw" }
        (Request.Batch [])).2.map authHeaderValues)
      = [["Basic " ++ base64Encode (utf8Bytes ("user" ++ ":" ++ "pw"))]] :=
  both_auth_fields_append_in_order _ _ _ _ [49] 0 "http://h" "tk2" "user" "pw"
    rfl

/-- C10: every transport reachable through the three public constructors has
at most one authentication scheme populated, and its basic-auth username and
password are `some` together or `none` together; in particular the
both-Bearer-and-Basic state is unreachable via the public API. -/
theorem reachable_auth_exclusive (t : HttpTransport)
    (h : ReachableTransport t) :
    (t.bearer_auth_token.isSome && t.basic_auth_username.isSome) = false
    ∧ (t.bearer_auth_token.isSome && t.basic_auth_password.isSome) = false
    ∧ t.basic_auth_username.isSome = t.basic_auth_password.isSome := by
  cases h <;>
    simp [HttpTransport.new, HttpTransport.new_with_bearer_auth,
      HttpTransport.new_with_basic_auth]

theorem reachable_auth_exclusive_witness :
    ((HttpTransport.new_with_basic_auth 0 "http://h" "u" "p").bearer_auth_token.isSome
        && (HttpTransport.new_with_basic_auth 0 "http://h" "u" "p").basic_auth_username.isSome)
      = false
    ∧ ((HttpTransport.new_with_basic_auth 0 "http://h" "u" "p").bearer_auth_token.isSome
        && (HttpTransport.new_with_basic_auth 0 "http://h" "u" "p").basic_auth_password.isSome)
      = false
    ∧ (HttpTransport.new_with_basic_auth 0 "http://h" "u" "p").basic_auth_username.isSome
      = (HttpTransport.new_with_basic_auth 0 "http://h" "u" "p").basic_auth_password.isSome :=
  reachable_auth_exclusive _ (ReachableTransport.basic 0 "http://h" "u" "p")

lemma prepareW_fst (w : World) (t : HttpTransport) (m : String) (p : Params) :
    (prepareW w t m p).1.1 = w.alloc t.allocRef := rfl

lemma runPrepares_ids (hs : List HttpTransport) :
    ∀ (w : World) (a : Nat), w.alloc a < USIZE →
    (∀ h ∈ hs, h.allocRef = a) →
    (runPrepares w hs).1
      = (List.range hs.length).map (fun k => (w.alloc a + k) % USIZE)
    ∧ (runPrepares w hs).2.alloc a = (w.alloc a + hs.length) % USIZE := by
  induction hs with
  | nil =>
      intro w a h0 _
      refine ⟨by simp [runPrepares], ?_⟩
      simp [runPrepares, Nat.mod_eq_of_lt h0]
  | cons t ts ih =>
      intro w a h0 hh
      have hta : t.allocRef = a := hh t (List.mem_cons_self t ts)
      have hh' : ∀ h ∈ ts, h.allocRef = a := fun h hm =>
        hh h (List.mem_cons_of_mem t hm)
      have hid : (prepareW w t "" (Params.array [])).1.1 = w.alloc a := by
        simp [prepareW, prepare, fetch_add, hta]
      have hw' : (prepareW w t "" (Params.array [])).2.alloc a
          = (w.alloc a + 1) % USIZE := by
        simp [prepareW, prepare, fetch_add, hta, Function.update_same]
      have h0' : (prepareW w t "" (Params.array [])).2.alloc a < USIZE := by
        rw [hw']; exact Nat.mod_lt _ USIZE_pos
      obtain ⟨hids, hfin⟩ := ih (prepareW w t "" (Params.array [])).2 a h0' hh'
      rw [hw'] at hids hfin
      constructor
      · show (prepareW w t "" (Params.array [])).1.1
            :: (runPrepares (prepareW w t "" (Params.array [])).2 ts).1
          = (List.range (ts.length + 1)).map (fun k => (w.alloc a + k) % USIZE)
        rw [hid, hids, List.range_succ_eq_map, List.map_cons, List.map_map]
        congr 1
        · rw [Nat.add_zero, Nat.mod_eq_of_lt h0]
        · apply List.map_congr_left
          intro k _
          show ((w.alloc a + 1) % USIZE + k) % USIZE
            = (w.alloc a + Nat.succ k) % USIZE
          rw [Nat.mod_add_mod]
          congr 1
          omega
      · show (runPrepares (prepareW w t "" (Params.array [])).2 ts).2.alloc a
          = (w.alloc a + (ts.length + 1)) % USIZE
        rw [hfin, Nat.mod_add_mod]
        congr 1
        omega

/-- C8 (amended: as long as at most `2^64` ids are drawn in total, before the
shared `usize` counter wraps): cloning copies the `Arc` of the atomic
counter, so a clone shares the allocator with the original, and any
interleaving of `prepare` calls on the original and its clone yields the
consecutive ids `0, 1, 2, …` — pairwise distinct across the two handles. -/
theorem clone_shares_allocator (t : HttpTransport) (w : World)
    (sched : List HttpTransport)
    (h0 : w.alloc t.allocRef = 0)
    (hsched : ∀ h ∈ sched, h = t ∨ h = cloneTransport t)
    (hlen : sched.length ≤ USIZE) :
    (cloneTransport t).allocRef = t.allocRef
    ∧ (runPrepares w sched).1 = List.range sched.length
    ∧ (runPrepares w sched).1.Pairwise Ne := by
  have hh : ∀ h ∈ sched, h.allocRef = t.allocRef := by
    intro h hm
    rcases hsched h hm with h1 | h1 <;> simp [h1, cloneTransport]
  have h0' : w.alloc t.allocRef < USIZE := by rw [h0]; exact USIZE_pos
  obtain ⟨hids, _⟩ := runPrepares_ids sched w t.allocRef h0' hh
  rw [h0] at hids
  have hsmall : ∀ k ∈ List.range sched.length, (0 + k) % USIZE = k := by
    intro k hk
    rw [Nat.zero_add,
      Nat.mod_eq_of_lt (lt_of_lt_of_le (List.mem_range.mp hk) hlen)]
  have hid2 : (runPrepares w sched).1 = List.range sched.length := by
    rw [hids, List.map_congr_left hsmall, List.map_id']
  refine ⟨rfl, hid2, ?_⟩
  rw [hid2]
  exact (List.pairwise_lt_range _).imp Nat.ne_of_lt

theorem clone_shares_allocator_witness :
    (cloneTransport (HttpTransport.new 5 "http://h")).allocRef
      = (HttpTransport.new 5 "http://h").allocRef
    ∧ (runPrepares ⟨fun _ => 0⟩
        [HttpTransport.new 5 "http://h",
         cloneTransport (HttpTransport.new 5 "http://h"),
         HttpTransport.new 5 "http://h"]).1 = List.range 3
    ∧ (runPrepares ⟨fun _ => 0⟩
        [HttpTransport.new 5 "http://h",
         cloneTransport (HttpTransport.new 5 "http://h"),
         HttpTransport.new 5 "http://h"]).1.Pairwise Ne :=
  clone_shares_allocator (HttpTransport.new 5 "http://h") ⟨fun _ => 0⟩
    [HttpTransport.new 5 "http://h",
     cloneTransport (HttpTransport.new 5 "http://h"),
     HttpTransport.new 5 "http://h"]
    rfl
    (by
      intro h hm
      simp only [List.mem_cons, List.not_mem_nil, or_false] at hm
      tauto)
    (by decide)

/-- C8 counterexample: ids are NOT pairwise distinct across a transport and
its clone without a bound on the number of calls — the first `prepare` on
the original returns id 0, and after `2^64` calls on the original the
wrapped shared counter makes the clone's next `prepare` return id 0 again. -/
theorem clone_repeats_id_after_wrap :
    (runPrepares ⟨fun _ => 0⟩ [HttpTransport.new 0 "http://h"]).1 = [0]
    ∧ (prepareW
         (runPrepares ⟨fun _ => 0⟩
           (List.replicate USIZE (HttpTransport.new 0 "http://h"))).2
         (cloneTransport (HttpTransport.new 0 "http://h")) ""
         (Params.array [])).1.1 = 0 := by
  constructor
  · rfl
  · have hh : ∀ h ∈ List.replicate USIZE (HttpTransport.new 0 "http://h"),
        h.allocRef = 0 := by
      intro h hm
      rw [List.eq_of_mem_replicate hm]
      rfl
    have h0 : (⟨fun _ => 0⟩ : World).alloc 0 < USIZE := USIZE_pos
    obtain ⟨_, hfin⟩ :=
      runPrepares_ids (List.replicate USIZE (HttpTransport.new 0 "http://h"))
        ⟨fun _ => 0⟩ 0 h0 hh
    rw [List.length_replicate] at hfin
    rw [prepareW_fst]
    have hra : (cloneTransport (HttpTransport.new 0 "http://h")).allocRef = 0 :=
      rfl
    rw [hra, hfin, Nat.zero_add, Nat.mod_self]
